import Mathlib

/-!
Verification development for the `buckschurch_scripts` automation repository.

The definitions below are shallow embeddings of the Python sources:

* `src/automation/cafe_midi_control/sq_midi_db.py` — the NRPN address
  database (`CONTROL_BASE_ADDRESS`, `TO_CHANNEL_BASE_ADDRESS`,
  `_build_channel_address_map`, `get_nrpn_address`).
* `src/automation/cafe_midi_control/sq_midi_controller.py` — the value
  codecs (`db_to_fader_level`, `pan_to_value`) and the NRPN command
  constructors (`SetFaderLevelNRPN.__init__`, `SetPanNRPN.__init__`).
* `src/automation/cafe_midi_control/proto3k.py` — the Protocol 3000
  response grammar (`KramerMessage.P3K_RESPONSE_RE`,
  `KramerMessage._parse_response`) and the send/correlate state machine
  (`KramerProtocol.send_message`).

Python `dict`s built by single-assignment loops are embedded as
association lists searched with `List.lookup`; since every key is
assigned exactly once during construction, first-match lookup agrees
with the dict. Python `float` arithmetic is idealised as exact rational
arithmetic (`ℚ`); Python `int(x)` (truncation toward zero), `round(x)`
(ties to even) and `str.strip()` are embedded explicitly below.
Exceptions are embedded with `Except`.
-/

namespace BucksChurch

set_option maxRecDepth 100000

/-! ## sq_midi_db.py -/

/-- Base address per control type (`CONTROL_BASE_ADDRESS`). -/
def CONTROL_BASE_ADDRESS : List (String × ℕ) :=
  [("Mute", 0x0000), ("Fader", 8192), ("Pan", 10240), ("Assign", 12288)]

/-- Per-destination base offsets (`TO_CHANNEL_BASE_ADDRESS`). -/
def TO_CHANNEL_BASE_ADDRESS : List (String × ℕ) :=
  [("LR", 0), ("AUX1", 128), ("AUX2", 256), ("AUX3", 384),
   ("AUX4", 512), ("AUX5", 640), ("AUX6", 768), ("AUX7", 896),
   ("AUX8", 1024), ("AUX9", 1152), ("AUX10", 1280), ("AUX11", 1408),
   ("AUX12", 1536), ("GRP1", 1664), ("GRP2", 1792), ("GRP3", 1920),
   ("GRP4", 2048), ("GRP5", 2176), ("GRP6", 2304), ("GRP7", 2432),
   ("GRP8", 2560), ("GRP9", 2688), ("GRP10", 2816), ("GRP11", 2944),
   ("GRP12", 3072), ("FXSND1", 3200), ("FXSND2", 3328), ("FXSND3", 3456),
   ("FXSND4", 3584), ("MTX1", 3712), ("MTX2", 3840), ("MTX3", 3968),
   ("MTX4", 4096), ("MTX5", 4224), ("MTX6", 4352), ("MTX7", 4480),
   ("MTX8", 4608), ("MTX9", 4736), ("MTX10", 4864), ("MTX11", 4992),
   ("MTX12", 5120)]

/-- Crosspoint part of `_build_channel_address_map`: for each destination,
inputs `IP1..IP48` at offsets `base+0..base+47`, then FX returns
`FXRTN1..FXRTN8` at offsets `base+48..base+55`. -/
def crosspointEntries : List ((String × String) × ℕ) :=
  TO_CHANNEL_BASE_ADDRESS.flatMap (fun tb =>
    ((List.range 48).map (fun i => (("IP" ++ toString (i + 1), tb.1), tb.2 + i)))
    ++ ((List.range 8).map (fun i => (("FXRTN" ++ toString (i + 1), tb.1), tb.2 + i + 48))))

/-- Master-bus part of `_build_channel_address_map`: `(ch, ch)` pairs for
LR, AUX1-12, GRP1-12, FXSND1-4, FXRTN1-8 and MTX1-12. -/
def masterEntries : List ((String × String) × ℕ) :=
  (("LR", "LR"), 2424) ::
  ((List.range 12).map (fun i => (("AUX" ++ toString (i + 1), "AUX" ++ toString (i + 1)), 2504 + i))
   ++ (List.range 12).map (fun i => (("GRP" ++ toString (i + 1), "GRP" ++ toString (i + 1)), 2516 + i))
   ++ (List.range 4).map (fun i => (("FXSND" ++ toString (i + 1), "FXSND" ++ toString (i + 1)), 2528 + i))
   ++ (List.range 8).map (fun i => (("FXRTN" ++ toString (i + 1), "FXRTN" ++ toString (i + 1)), 2532 + i))
   ++ (List.range 12).map (fun i => (("MTX" ++ toString (i + 1), "MTX" ++ toString (i + 1)), 2540 + i)))

/-- The full `CHANNEL_ADDRESS_MAP` in construction order. -/
def CHANNEL_ADDRESS_MAP : List ((String × String) × ℕ) :=
  crosspointEntries ++ masterEntries

/-- Python exception kinds raised by `get_nrpn_address`. -/
inductive DbError where
  | keyError : DbError
  | valueError : DbError
deriving DecidableEq, Repr

/-- Embedding of `get_nrpn_address`: unknown control type or channel pair
raises `KeyError`; a computed address outside `[0, 16383]` raises
`ValueError`; otherwise the address is returned. -/
def get_nrpn_address (control from_ch to_ch : String) : Except DbError ℕ :=
  match CONTROL_BASE_ADDRESS.lookup control with
  | none => .error .keyError
  | some base_addr =>
    match CHANNEL_ADDRESS_MAP.lookup (from_ch, to_ch) with
    | none => .error .keyError
    | some channel_addr =>
      let final_address := base_addr + channel_addr
      if final_address ≤ 16383 then .ok final_address else .error .valueError

/-- A successful association-list lookup produces an entry of the list. -/
theorem lookup_mem {α β : Type} [BEq α] [LawfulBEq α] {k : α} {v : β} :
    ∀ {l : List (α × β)}, l.lookup k = some v → (k, v) ∈ l := by
  intro l
  induction l with
  | nil => simp [List.lookup]
  | cons p rest ih =>
    obtain ⟨a, b⟩ := p
    intro h
    rw [List.lookup] at h
    by_cases hk : k == a
    · simp only [hk] at h
      cases h
      exact (eq_of_beq hk) ▸ List.mem_cons_self _ _
    · simp only [hk] at h
      exact List.mem_cons_of_mem _ (ih h)

/-- All destination base offsets are at most 5120. -/
theorem to_base_le : ∀ p ∈ TO_CHANNEL_BASE_ADDRESS, p.2 ≤ 5120 := by decide

/-- Every crosspoint offset is at most `5120 + 7 + 48 = 5175`. -/
theorem crosspoint_le : ∀ e ∈ crosspointEntries, e.2 ≤ 5175 := by
  intro e he
  simp only [crosspointEntries, List.mem_flatMap, List.mem_append, List.mem_map,
    List.mem_range] at he
  obtain ⟨tb, htb, h | h⟩ := he <;> obtain ⟨i, hi, rfl⟩ := h <;>
    have := to_base_le tb htb <;> omega

/-- Every master-bus offset is at most 2551. -/
theorem master_le : ∀ e ∈ masterEntries, e.2 ≤ 2551 := by
  decide

/-- Every channel offset in the built map is at most 5175. -/
theorem map_value_le : ∀ e ∈ CHANNEL_ADDRESS_MAP, e.2 ≤ 5175 := by
  intro e he
  rcases List.mem_append.mp he with h | h
  · exact crosspoint_le e h
  · exact le_trans (master_le e h) (by norm_num)

/-- Resolving a known control and a known pair reduces to the range-checked
sum of base address and channel offset. -/
theorem get_nrpn_address_eq {c f t : String} {b v : ℕ}
    (hc : CONTROL_BASE_ADDRESS.lookup c = some b)
    (hp : CHANNEL_ADDRESS_MAP.lookup (f, t) = some v) :
    get_nrpn_address c f t =
      if b + v ≤ 16383 then .ok (b + v) else .error .valueError := by
  unfold get_nrpn_address
  rw [hc, hp]

/-- Base address of the Mute control. -/
theorem control_mute : CONTROL_BASE_ADDRESS.lookup "Mute" = some 0 := rfl

/-- Base address of the Fader control. -/
theorem control_fader : CONTROL_BASE_ADDRESS.lookup "Fader" = some 8192 := rfl

/-- Base address of the Pan control. -/
theorem control_pan : CONTROL_BASE_ADDRESS.lookup "Pan" = some 10240 := rfl

/-- Base address of the Assign control. -/
theorem control_assign : CONTROL_BASE_ADDRESS.lookup "Assign" = some 12288 := rfl

/-- C1 (counterexample): the pair `("IP1", "MTX4")` is present in
`CHANNEL_ADDRESS_MAP` (offset 4096), yet `get_nrpn_address` for the
`Assign` control raises a range `ValueError` (12288 + 4096 = 16384 > 16383)
instead of returning an address in `[0, 16383]`. -/
theorem c1_counterexample :
    CHANNEL_ADDRESS_MAP.lookup ("IP1", "MTX4") = some 4096 ∧
    get_nrpn_address "Assign" "IP1" "MTX4" = .error .valueError :=
  ⟨rfl, rfl⟩

/-- C1 (amended): for every `(from, to)` pair present in
`CHANNEL_ADDRESS_MAP` with offset `v`: the `Mute`, `Fader` and `Pan`
controls resolve without raising to `v`, `8192 + v` and `10240 + v`
respectively, all within `[0, 16383]`; the `Assign` control resolves to
`12288 + v` when `v ≤ 4095` but raises a range `ValueError` when
`4095 < v` (crosspoints into MTX4..MTX12); an unknown control type or an
unknown channel pair raises a `KeyError`. Resolution is a pure function
of the `(control, from, to)` triple, hence deterministic. -/
theorem c1_nrpn_address_resolution (f t : String) (v : ℕ)
    (h : CHANNEL_ADDRESS_MAP.lookup (f, t) = some v) :
    (get_nrpn_address "Mute" f t = .ok v ∧ v ≤ 16383) ∧
    (get_nrpn_address "Fader" f t = .ok (8192 + v) ∧ 8192 + v ≤ 16383) ∧
    (get_nrpn_address "Pan" f t = .ok (10240 + v) ∧ 10240 + v ≤ 16383) ∧
    (v ≤ 4095 → get_nrpn_address "Assign" f t = .ok (12288 + v)) ∧
    (4095 < v → get_nrpn_address "Assign" f t = .error .valueError) ∧
    (∀ c, CONTROL_BASE_ADDRESS.lookup c = none →
      get_nrpn_address c f t = .error .keyError) ∧
    (∀ c f' t', CHANNEL_ADDRESS_MAP.lookup (f', t') = none →
      get_nrpn_address c f' t' = .error .keyError) := by
  have hv : v ≤ 5175 := map_value_le _ (lookup_mem h)
  refine ⟨⟨?_, by omega⟩, ⟨?_, by omega⟩, ⟨?_, by omega⟩, ?_, ?_, ?_, ?_⟩
  · rw [get_nrpn_address_eq control_mute h, if_pos (by omega)]
    norm_num
  · rw [get_nrpn_address_eq control_fader h, if_pos (by omega)]
  · rw [get_nrpn_address_eq control_pan h, if_pos (by omega)]
  · intro hle
    rw [get_nrpn_address_eq control_assign h, if_pos (by omega)]
  · intro hgt
    rw [get_nrpn_address_eq control_assign h, if_neg (by omega)]
  · intro c hc
    unfold get_nrpn_address
    rw [hc]
  · intro c f' t' hn
    unfold get_nrpn_address
    cases hcb : CONTROL_BASE_ADDRESS.lookup c
    · rfl
    · rw [hn]

/-- C1 witness: the theorem applied at the concrete known pair
`("IP1", "LR")`, whose channel offset is 0. -/
theorem c1_nrpn_address_resolution_witness :
    CHANNEL_ADDRESS_MAP.lookup ("IP1", "LR") = some 0 ∧
    get_nrpn_address "Pan" "IP1" "LR" = .ok 10240 :=
  ⟨rfl, by simpa using (c1_nrpn_address_resolution "IP1" "LR" 0 rfl).2.2.1.1⟩

/-! ## sq_midi_controller.py — value codecs -/

/-- Python `int(x)` applied to a real value: truncation toward zero. -/
def pyTrunc (x : ℚ) : ℤ := if x < 0 then Int.ceil x else Int.floor x

/-- Python `round(x)` applied to a real value: round half to even. -/
def pyRound (x : ℚ) : ℤ :=
  if x - Int.floor x < 1/2 then Int.floor x
  else if 1/2 < x - Int.floor x then Int.floor x + 1
  else if Int.floor x % 2 = 0 then Int.floor x else Int.floor x + 1

/-- Embedding of `pan_to_value`: clamp to `[-100, 100]` in two sequential
steps as in the source, scale onto `[0, 16383]`, convert with `int()`. -/
def pan_to_value (pan : ℚ) : ℤ :=
  let pan1 := if pan < -100 then -100 else pan
  let pan2 := if pan1 > 100 then 100 else pan1
  pyTrunc ((pan2 + 100) / 200 * 16383)

/-- Truncation toward zero agrees with the floor on nonnegative values. -/
theorem pyTrunc_eq_floor {x : ℚ} (h : 0 ≤ x) : pyTrunc x = Int.floor x := by
  unfold pyTrunc
  rw [if_neg (not_lt.mpr h)]

/-- Concrete floor value used by the pan counterexample. -/
theorem floor_half_16383 : Int.floor ((16383 : ℚ) / 2) = 8191 := by
  rw [Int.floor_eq_iff]
  norm_num

/-- Python rounding fixes integers. -/
theorem pyRound_intCast (z : ℤ) : pyRound (z : ℚ) = z := by
  unfold pyRound
  rw [Int.floor_intCast]
  simp

/-- C5 (counterexample): at `pan = 0` the code returns 8191, while the
claimed formula `round(((pan+100)/200)*16383)` gives 8192 (the scaled
value is exactly 8191.5 and Python `round` takes it to the even 8192,
but the code truncates with `int`). -/
theorem c5_counterexample :
    pan_to_value 0 = 8191 ∧
    pyRound ((((0 : ℚ) + 100) / 200) * 16383) = 8192 ∧
    pan_to_value 0 ≠ pyRound ((((0 : ℚ) + 100) / 200) * 16383) := by
  have harg : ((0 : ℚ) + 100) / 200 * 16383 = 16383 / 2 := by norm_num
  have h1 : pan_to_value 0 = 8191 := by
    simp only [pan_to_value]
    rw [if_neg (by norm_num : ¬ (0 : ℚ) < -100)]
    rw [if_neg (by norm_num : ¬ (0 : ℚ) > 100)]
    rw [harg, pyTrunc_eq_floor (by norm_num), floor_half_16383]
  have h2 : pyRound ((((0 : ℚ) + 100) / 200) * 16383) = 8192 := by
    rw [harg]
    unfold pyRound
    rw [floor_half_16383]
    rw [if_neg (by norm_num), if_neg (by norm_num), if_neg (by norm_num)]
    norm_num
  exact ⟨h1, h2, by rw [h1, h2]; norm_num⟩

/-- C5 (amended): `pan_to_value` first clamps `pan` to `[-100, 100]` and
then returns the linear map onto `[0, 16383]` truncated toward zero by
Python `int()` — equivalently its floor, since the scaled value is
nonnegative — not rounded to the nearest integer. -/
theorem c5_pan_to_value (pan : ℚ) :
    pan_to_value pan = Int.floor ((min 100 (max (-100) pan) + 100) / 200 * 16383) := by
  have hclamp : (if (if pan < -100 then (-100 : ℚ) else pan) > 100 then (100 : ℚ)
      else if pan < -100 then (-100 : ℚ) else pan) = min 100 (max (-100) pan) := by
    rcases lt_or_le pan (-100) with h | h
    · rw [if_pos h, if_neg (by norm_num), max_eq_left h.le, min_eq_right (by norm_num)]
    · rw [max_eq_right h]
      rcases lt_or_le (100 : ℚ) pan with h2 | h2
      · rw [if_neg (not_lt.mpr h), if_pos h2, min_eq_left h2.le]
      · rw [if_neg (not_lt.mpr h), if_neg (not_lt.mpr h2), min_eq_right h2]
  simp only [pan_to_value]
  rw [hclamp, pyTrunc_eq_floor]
  have h1 : (0 : ℚ) ≤ min 100 (max (-100) pan) + 100 := by
    have : (-100 : ℚ) ≤ min 100 (max (-100) pan) := le_min (by norm_num) (le_max_left _ _)
    linarith
  have := div_nonneg h1 (by norm_num : (0 : ℚ) ≤ 200)
  linarith [mul_nonneg this (by norm_num : (0 : ℚ) ≤ 16383)]

/-! ## sq_midi_controller.py — fader taper -/

/-- Anchor table `FADER_TAPER_MAP`: `(dB, 14-bit level)` calibration points. -/
def FADER_TAPER_MAP : List (ℚ × ℤ) :=
  [(-80, 5698), (-60, 8073), (-40, 10447), (-35, 11041), (-30, 11634),
   (-25, 12228), (-20, 12822), (-15, 13415), (-10, 14009), (-5, 14602),
   (0, 15196), (5, 15790), (10, 16383)]

/-- The segment-selection loop of `db_to_fader_level`: scanning from
index 1 with `prev` the previous anchor, return the first adjacent pair
`(p1, p2)` with `db ≤ p2.1`; if the scan falls off the end both points
stay at the initialisation value `FADER_TAPER_MAP[0]` (passed as `fb`). -/
def findSeg (db : ℚ) (fb : ℚ × ℤ) : List (ℚ × ℤ) → (ℚ × ℤ) → ((ℚ × ℤ) × (ℚ × ℤ))
  | [], _ => (fb, fb)
  | p :: rest, prev => if db ≤ p.1 then (prev, p) else findSeg db fb rest p

/-- Linear interpolation `y1 + (x - x1) * (y2 - y1) / (x2 - x1)`. -/
def interp (p1 p2 : ℚ × ℤ) (db : ℚ) : ℚ :=
  (p1.2 : ℚ) + (db - p1.1) * ((p2.2 : ℚ) - (p1.2 : ℚ)) / (p2.1 - p1.1)

/-- Embedding of `db_to_fader_level`: clip at the ends, select the
bracketing anchors, interpolate, Python-round, clamp to `[0, 16383]`. -/
def db_to_fader_level (db : ℚ) : ℤ :=
  if 10 ≤ db then 16383
  else if db ≤ -80 then 0
  else
    let s := findSeg db FADER_TAPER_MAP.headI FADER_TAPER_MAP.tail FADER_TAPER_MAP.headI
    if s.2.1 = s.1.1 then s.1.2
    else max 0 (min 16383 (pyRound (interp s.1 s.2 db)))

/-- Python rounding is monotone. -/
theorem pyRound_mono {x y : ℚ} (h : x ≤ y) : pyRound x ≤ pyRound y := by
  have hf : Int.floor x ≤ Int.floor y := Int.floor_mono h
  rcases eq_or_lt_of_le hf with he | hl
  · unfold pyRound
    rw [← he]
    split_ifs <;> first | omega | (exfalso; linarith)
  · have h1 : pyRound x ≤ Int.floor x + 1 := by
      unfold pyRound
      split_ifs <;> omega
    have h2 : Int.floor y ≤ pyRound y := by
      unfold pyRound
      split_ifs <;> omega
    omega

/-- Interpolation between anchors with positive dB gap and nondecreasing
levels is monotone in the sample point. -/
theorem interp_le_interp {p1 p2 : ℚ × ℤ} {d d' : ℚ}
    (hx : p1.1 < p2.1) (hy : (p1.2 : ℚ) ≤ (p2.2 : ℚ)) (hd : d ≤ d') :
    interp p1 p2 d ≤ interp p1 p2 d' := by
  unfold interp
  rw [mul_div_assoc, mul_div_assoc]
  have hk : 0 ≤ ((p2.2 : ℚ) - (p1.2 : ℚ)) / (p2.1 - p1.1) :=
    div_nonneg (by linarith) (by linarith)
  have := mul_le_mul_of_nonneg_right (by linarith : d - p1.1 ≤ d' - p1.1) hk
  linarith

/-- Interpolation evaluated at the right anchor recovers its level. -/
theorem interp_right {p1 p2 : ℚ × ℤ} (hx : p1.1 < p2.1) :
    interp p1 p2 p2.1 = (p2.2 : ℚ) := by
  unfold interp
  have hne : p2.1 - p1.1 ≠ 0 := by linarith
  field_simp

/-- The taper table is strictly increasing in dB and nondecreasing in level. -/
theorem taper_chain :
    List.Chain' (fun a b : ℚ × ℤ => a.1 < b.1 ∧ a.2 ≤ b.2) FADER_TAPER_MAP := by
  norm_num [FADER_TAPER_MAP]

/-- When the scan starts strictly right of `prev` and some later anchor
bounds `db` from above, `findSeg` returns a nondegenerate adjacent pair
whose interpolation at `db` is at least `prev`'s level. -/
theorem findSeg_lb (db : ℚ) (fb : ℚ × ℤ) :
    ∀ (l : List (ℚ × ℤ)) (prev : ℚ × ℤ),
      List.Chain' (fun a b : ℚ × ℤ => a.1 < b.1 ∧ a.2 ≤ b.2) (prev :: l) →
      prev.1 < db → (∃ q, q ∈ l ∧ db ≤ q.1) →
      (findSeg db fb l prev).1.1 < (findSeg db fb l prev).2.1 ∧
      ((findSeg db fb l prev).1.2 : ℚ) ≤ ((findSeg db fb l prev).2.2 : ℚ) ∧
      (prev.2 : ℚ) ≤ interp (findSeg db fb l prev).1 (findSeg db fb l prev).2 db := by
  intro l
  induction l with
  | nil =>
    intro prev _ _ hex
    exact absurd hex (by simp)
  | cons q rest ih =>
    intro prev hchain hprev hex
    rw [List.chain'_cons] at hchain
    obtain ⟨hpq, hchain'⟩ := hchain
    have hy : (prev.2 : ℚ) ≤ (q.2 : ℚ) := by exact_mod_cast hpq.2
    by_cases hq : db ≤ q.1
    · simp only [findSeg]
      rw [if_pos hq]
      refine ⟨hpq.1, hy, ?_⟩
      unfold interp
      have hnn : 0 ≤ (db - prev.1) * ((q.2 : ℚ) - (prev.2 : ℚ)) / (q.1 - prev.1) :=
        div_nonneg (mul_nonneg (by linarith) (by linarith)) (by linarith [hpq.1])
      dsimp only
      linarith
    · simp only [findSeg]
      rw [if_neg hq]
      obtain ⟨q0, hq0m, hq0⟩ := hex
      have hq0r : q0 ∈ rest := by
        rcases List.mem_cons.mp hq0m with rfl | hr
        · exact absurd hq0 hq
        · exact hr
      have hrec := ih q hchain' (lt_of_not_le hq) ⟨q0, hq0r, hq0⟩
      exact ⟨hrec.1, hrec.2.1, le_trans hy hrec.2.2⟩

/-- Sampling the selected segments at two dB values in order gives
interpolants in order: the selected interpolation is globally monotone. -/
theorem findSeg_interp_mono (fb : ℚ × ℤ) (d1 d2 : ℚ) (h12 : d1 ≤ d2) :
    ∀ (l : List (ℚ × ℤ)) (prev : ℚ × ℤ),
      List.Chain' (fun a b : ℚ × ℤ => a.1 < b.1 ∧ a.2 ≤ b.2) (prev :: l) →
      prev.1 < d1 → (∃ q, q ∈ l ∧ d2 ≤ q.1) →
      interp (findSeg d1 fb l prev).1 (findSeg d1 fb l prev).2 d1 ≤
        interp (findSeg d2 fb l prev).1 (findSeg d2 fb l prev).2 d2 := by
  intro l
  induction l with
  | nil =>
    intro prev _ _ hex
    exact absurd hex (by simp)
  | cons q rest ih =>
    intro prev hchain hprev hex
    rw [List.chain'_cons] at hchain
    obtain ⟨hpq, hchain'⟩ := hchain
    have hy : (prev.2 : ℚ) ≤ (q.2 : ℚ) := by exact_mod_cast hpq.2
    by_cases hd2 : d2 ≤ q.1
    · have hd1 : d1 ≤ q.1 := le_trans h12 hd2
      simp only [findSeg]
      rw [if_pos hd1, if_pos hd2]
      exact interp_le_interp hpq.1 hy h12
    · obtain ⟨q0, hq0m, hq0⟩ := hex
      have hq0r : q0 ∈ rest := by
        rcases List.mem_cons.mp hq0m with rfl | hr
        · exact absurd hq0 hd2
        · exact hr
      by_cases hd1 : d1 ≤ q.1
      · simp only [findSeg]
        rw [if_pos hd1, if_neg hd2]
        have hstep : interp prev q d1 ≤ (q.2 : ℚ) := by
          have h := interp_le_interp hpq.1 hy hd1
          rw [interp_right hpq.1] at h
          exact h
        have hlb := findSeg_lb d2 fb rest q hchain' (lt_of_not_le hd2) ⟨q0, hq0r, hq0⟩
        exact le_trans hstep hlb.2.2
      · simp only [findSeg]
        rw [if_neg hd1, if_neg hd2]
        exact ih q hchain' (lt_of_not_le hd1) ⟨q0, hq0r, hq0⟩

/-- Hypothesis package instantiating the scan lemmas on the taper table
for a dB value strictly inside `(-80, 10)`. -/
theorem taper_prereq {db : ℚ} (h1 : ¬ 10 ≤ db) (h2 : ¬ db ≤ -80) :
    List.Chain' (fun a b : ℚ × ℤ => a.1 < b.1 ∧ a.2 ≤ b.2)
      (FADER_TAPER_MAP.headI :: FADER_TAPER_MAP.tail) ∧
    FADER_TAPER_MAP.headI.1 < db ∧
    (∃ q, q ∈ FADER_TAPER_MAP.tail ∧ db ≤ q.1) := by
  refine ⟨taper_chain, ?_, ⟨(10, 16383), ?_, ?_⟩⟩
  · show (-80 : ℚ) < db
    linarith [lt_of_not_le h2]
  · norm_num [FADER_TAPER_MAP]
  · show db ≤ (10 : ℚ)
    linarith [lt_of_not_le h1]

/-- In the interior of the table's domain, `db_to_fader_level` is the
clamped Python-rounding of the selected segment's interpolant. -/
theorem dbfl_eval {db : ℚ} (h1 : ¬ 10 ≤ db) (h2 : ¬ db ≤ -80) :
    db_to_fader_level db = max 0 (min 16383 (pyRound (interp
      (findSeg db FADER_TAPER_MAP.headI FADER_TAPER_MAP.tail FADER_TAPER_MAP.headI).1
      (findSeg db FADER_TAPER_MAP.headI FADER_TAPER_MAP.tail FADER_TAPER_MAP.headI).2
      db))) := by
  obtain ⟨hch, hprev, hex⟩ := taper_prereq h1 h2
  have hlb := findSeg_lb db FADER_TAPER_MAP.headI FADER_TAPER_MAP.tail
    FADER_TAPER_MAP.headI hch hprev hex
  simp only [db_to_fader_level]
  rw [if_neg h1, if_neg h2, if_neg (ne_of_gt hlb.1)]

/-- `db_to_fader_level` never returns a negative level. -/
theorem dbfl_nonneg (db : ℚ) : 0 ≤ db_to_fader_level db := by
  by_cases h1 : 10 ≤ db
  · simp only [db_to_fader_level]
    rw [if_pos h1]
    norm_num
  by_cases h2 : db ≤ -80
  · simp only [db_to_fader_level]
    rw [if_neg h1, if_pos h2]
  · rw [dbfl_eval h1 h2]
    exact le_max_left 0 _

/-- `db_to_fader_level` never exceeds 16383. -/
theorem dbfl_le16383 (db : ℚ) : db_to_fader_level db ≤ 16383 := by
  by_cases h1 : 10 ≤ db
  · simp only [db_to_fader_level]
    rw [if_pos h1]
  by_cases h2 : db ≤ -80
  · simp only [db_to_fader_level]
    rw [if_neg h1, if_pos h2]
    norm_num
  · rw [dbfl_eval h1 h2]
    exact max_le (by norm_num) (min_le_left _ _)

/-- C9: `db_to_fader_level` is monotonically non-decreasing, and hits the
anchors `f 10 = 16383`, `f (-80) = 0` and `f 0 = 15196`, the latter being
exactly the unity anchor level recorded in `FADER_TAPER_MAP`. -/
theorem c9_db_to_fader_level :
    (∀ a b : ℚ, a ≤ b → db_to_fader_level a ≤ db_to_fader_level b) ∧
    db_to_fader_level 10 = 16383 ∧
    db_to_fader_level (-80) = 0 ∧
    db_to_fader_level 0 = 15196 ∧
    ((0 : ℚ), (15196 : ℤ)) ∈ FADER_TAPER_MAP := by
  refine ⟨?_, ?_, ?_, ?_, ?_⟩
  · intro a b hab
    by_cases hb1 : 10 ≤ b
    · have hb : db_to_fader_level b = 16383 := by
        simp only [db_to_fader_level]
        rw [if_pos hb1]
      rw [hb]
      exact dbfl_le16383 a
    by_cases ha2 : a ≤ -80
    · have ha : db_to_fader_level a = 0 := by
        simp only [db_to_fader_level]
        rw [if_neg (by intro h; exact hb1 (le_trans h (by linarith))), if_pos ha2]
      rw [ha]
      exact dbfl_nonneg b
    · have ha1 : ¬ 10 ≤ a := fun h => hb1 (le_trans h hab)
      have hb2 : ¬ b ≤ -80 := fun h => ha2 (le_trans hab h)
      rw [dbfl_eval ha1 ha2, dbfl_eval hb1 hb2]
      obtain ⟨hch, hpa, _⟩ := taper_prereq ha1 ha2
      obtain ⟨_, _, hexb⟩ := taper_prereq hb1 hb2
      have hmono := findSeg_interp_mono FADER_TAPER_MAP.headI a b hab
        FADER_TAPER_MAP.tail FADER_TAPER_MAP.headI hch hpa hexb
      exact max_le_max (le_refl 0) (min_le_min (le_refl _) (pyRound_mono hmono))
  · simp only [db_to_fader_level]
    rw [if_pos (le_refl (10 : ℚ))]
  · simp only [db_to_fader_level]
    rw [if_neg (by norm_num), if_pos (le_refl (-80 : ℚ))]
  · have hseg : findSeg 0 FADER_TAPER_MAP.headI FADER_TAPER_MAP.tail FADER_TAPER_MAP.headI
        = ((-5, 14602), (0, 15196)) := by
      norm_num [findSeg, FADER_TAPER_MAP]
    simp only [db_to_fader_level]
    rw [if_neg (by norm_num), if_neg (by norm_num), hseg]
    rw [if_neg (by norm_num)]
    rw [show interp ((-5 : ℚ), (14602 : ℤ)) ((0 : ℚ), (15196 : ℤ)) 0 = ((15196 : ℤ) : ℚ) by
      norm_num [interp]]
    rw [pyRound_intCast]
    norm_num
  · norm_num [FADER_TAPER_MAP]

/-- C9 witness: monotonicity of the fader taper applied at `0 ≤ 5`. -/
theorem c9_db_to_fader_level_witness :
    (0 : ℚ) ≤ 5 ∧ db_to_fader_level 0 ≤ db_to_fader_level 5 :=
  ⟨by norm_num, c9_db_to_fader_level.1 0 5 (by norm_num)⟩

/-! ## proto3k.py — response grammar

`P3K_RESPONSE_RE = r"[~]([0-9])+[@](.*?) ((?:.*)[,]{0,1})\r\n"`, applied
with `re.search`.  The regex is embedded by its matching semantics:
`([0-9])+` is a repeated one-character group, so group 1 holds the LAST
digit of the digit run; `(.*?)` is lazy and newline-free; the greedy
`(?:.*)` subsumes the optional comma, so group 3 is the longest
newline-free run immediately followed by CRLF (trailing comma included);
`re.search` retries at successive start positions. -/

/-- Characters removed by Python `str.strip()`. -/
def isPyWs (c : Char) : Bool :=
  c = ' ' || c = '\t' || c = '\n' || c = '\r' || c = '\x0b' || c = '\x0c'

/-- Python `str.strip()` on a character list. -/
def pyStripList (l : List Char) : List Char :=
  ((l.dropWhile isPyWs).reverse.dropWhile isPyWs).reverse

/-- Python `str.strip()`. -/
def pyStrip (s : String) : String := String.mk (pyStripList s.data)

/-- The tail `((?:.*)[,]{0,1})\r\n` of the pattern: the longest
newline-free prefix immediately followed by `"\r\n"`; the optional comma
is subsumed by the greedy `.*` and stays inside the captured group. -/
def matchParams : List Char → Option (List Char)
  | [] => none
  | c :: rest =>
    if c = '\n' then none
    else
      match matchParams rest with
      | some w => some (c :: w)
      | none =>
        if c = '\r' then
          match rest with
          | '\n' :: _ => some []
          | _ => none
        else none

/-- The lazy segment `(.*?)` followed by the literal space: the shortest
newline-free prefix whose next character is a space and after which the
parameter group matches; returns the captured (tag, params) lists. -/
def matchTagParams : List Char → Option (List Char × List Char)
  | [] => none
  | c :: rest =>
    if c = '\n' then none
    else if c = ' ' then
      match matchParams rest with
      | some w => some ([], w)
      | none =>
        match matchTagParams rest with
        | some (u, w) => some (c :: u, w)
        | none => none
    else
      match matchTagParams rest with
      | some (u, w) => some (c :: u, w)
      | none => none

/-- Structured result of `KramerMessage._parse_response`. -/
structure ParsedResponse where
  device : String
  command : String
  params : String
deriving DecidableEq, Repr

/-- One attempted match of the pattern anchored at the current position:
`~`, one or more digits (the repeated one-character group captures the
last digit), `@`, lazy tag, space, greedy params, CRLF. -/
def parseAt : List Char → Option (Char × List Char × List Char)
  | '~' :: rest =>
    let digits := rest.takeWhile Char.isDigit
    match digits.getLast? with
    | none => none
    | some d =>
      match rest.drop digits.length with
      | '@' :: rest2 =>
        match matchTagParams rest2 with
        | some (u, w) => some (d, u, w)
        | none => none
      | _ => none
  | _ => none

/-- `re.search` semantics: try each start position from the left. -/
def searchParse : List Char → Option (Char × List Char × List Char)
  | [] => none
  | c :: rest =>
    match parseAt (c :: rest) with
    | some r => some r
    | none => searchParse rest

/-- Embedding of `KramerMessage._parse_response`: on a match, device is
group 1, command is group 2 stripped, params is group 3 stripped; a
non-matching line gives the empty dict, modelled as `none`. -/
def parse_response (s : String) : Option ParsedResponse :=
  match searchParse s.data with
  | none => none
  | some (d, u, w) =>
    some ⟨String.mk [d], pyStrip (String.mk u), pyStrip (String.mk w)⟩

/-- Synthetic response line `~<device>@<tag> <params>\r\n` (the format
described by the spec's round-trip property and emitted by the device). -/
def mkResponseLine (device tag params : String) : String :=
  "~" ++ device ++ "@" ++ tag ++ " " ++ params ++ "\r\n"

/-- String append concatenates the underlying character lists. -/
theorem string_data_append (a b : String) : (a ++ b).data = a.data ++ b.data := rfl

/-- The parameter group matches a newline-free payload up to CRLF. -/
theorem matchParams_append (p : List Char) (hp : '\n' ∉ p) :
    matchParams (p ++ ['\r', '\n']) = some p := by
  induction p with
  | nil => rfl
  | cons c p' ih =>
    have hc : c ≠ '\n' := fun h => hp (h ▸ List.mem_cons_self c p')
    have hp' : '\n' ∉ p' := fun h => hp (List.mem_cons_of_mem _ h)
    simp only [List.cons_append, matchParams, if_neg hc, List.append_eq, ih hp']

/-- The lazy tag group stops exactly at the separating space when the
tag contains no space or newline and the params are newline-free. -/
theorem matchTagParams_append (t p : List Char)
    (ht : ∀ c ∈ t, c ≠ ' ' ∧ c ≠ '\n') (hp : '\n' ∉ p) :
    matchTagParams (t ++ ' ' :: (p ++ ['\r', '\n'])) = some (t, p) := by
  induction t with
  | nil =>
    simp only [List.nil_append, matchTagParams, matchParams_append p hp]
    rfl
  | cons c t' ih =>
    have hc := ht c (List.mem_cons_self c t')
    have ht' : ∀ x ∈ t', x ≠ ' ' ∧ x ≠ '\n' := fun x hx => ht x (List.mem_cons_of_mem _ hx)
    simp only [List.cons_append, matchTagParams, if_neg hc.2, if_neg hc.1,
      List.append_eq, ih ht']

/-- An anchored match of the full pattern on a well-formed line. -/
theorem parseAt_mk (d : Char) (t p : List Char)
    (hd : d.isDigit) (ht : ∀ c ∈ t, c ≠ ' ' ∧ c ≠ '\n') (hp : '\n' ∉ p) :
    parseAt ('~' :: d :: '@' :: (t ++ ' ' :: (p ++ ['\r', '\n']))) = some (d, t, p) := by
  have h1 : List.takeWhile Char.isDigit (d :: '@' :: (t ++ ' ' :: (p ++ ['\r', '\n'])))
      = [d] := by
    rw [List.takeWhile_cons_of_pos hd, List.takeWhile_cons_of_neg (by decide)]
  simp only [parseAt, h1, List.getLast?_singleton, List.length_singleton,
    List.drop_succ_cons, List.drop_zero, matchTagParams_append t p ht hp]

/-- Character-list layout of a synthetic response line. -/
theorem mkResponseLine_data (device tag params : String) :
    (mkResponseLine device tag params).data
      = '~' :: (device.data ++ '@' :: (tag.data ++ ' ' :: (params.data ++ ['\r', '\n']))) := by
  simp only [mkResponseLine, string_data_append]
  simp [List.append_assoc, List.singleton_append, List.cons_append]

/-- Parsing a synthetic line with a single-digit device id recovers the
device, the stripped tag, and the stripped params. -/
theorem parse_mkResponseLine (d : Char) (t p : String)
    (hd : d.isDigit) (ht : ∀ c ∈ t.data, c ≠ ' ' ∧ c ≠ '\n') (hp : '\n' ∉ p.data) :
    parse_response (mkResponseLine (String.mk [d]) t p) =
      some ⟨String.mk [d], pyStrip t, pyStrip p⟩ := by
  unfold parse_response
  rw [mkResponseLine_data]
  rw [show (String.mk [d]).data = [d] from rfl]
  simp only [List.cons_append, List.nil_append, searchParse,
    parseAt_mk d t.data p.data hd ht hp]

/-- C4 (counterexample): building a line from the two-digit device id
"01" and parsing it yields device "1" — the repeated one-character group
`([0-9])+` captures only the last digit — so the round trip fails. -/
theorem c4_counterexample :
    parse_response (mkResponseLine "01" "ROUTE" "1") = some ⟨"1", "ROUTE", "1"⟩ ∧
    parse_response (mkResponseLine "01" "ROUTE" "1") ≠ some ⟨"01", "ROUTE", "1"⟩ := by
  constructor
  · decide
  · decide

/-- C4 (amended): the round trip holds for single-digit device ids, tags
free of spaces and newlines and invariant under `strip()`, and
newline-free params invariant under `strip()`: parsing the synthetic
line recovers exactly (device, tag, params).  Multi-digit device ids
collapse to the last digit. -/
theorem c4_parser_round_trip (d : Char) (t p : String)
    (hd : d.isDigit) (ht : ∀ c ∈ t.data, c ≠ ' ' ∧ c ≠ '\n')
    (hts : pyStrip t = t) (hp : '\n' ∉ p.data) (hps : pyStrip p = p) :
    parse_response (mkResponseLine (String.mk [d]) t p) =
      some ⟨String.mk [d], t, p⟩ := by
  rw [parse_mkResponseLine d t p hd ht hp, hts, hps]

/-- C4 witness: the round trip at the concrete triple ('1', ROUTE, 7). -/
theorem c4_parser_round_trip_witness :
    parse_response (mkResponseLine (String.mk ['1']) "ROUTE" "7") =
      some ⟨String.mk ['1'], "ROUTE", "7"⟩ :=
  c4_parser_round_trip '1' "ROUTE" "7" (by decide) (by decide) (by decide)
    (by decide) (by decide)

/-- C6 (counterexample): a response line whose parameter list ends with a
comma parses to a params field that still ends with that comma — the
greedy group captures it and `strip()` removes only whitespace. -/
theorem c6_counterexample :
    parse_response "~1@ROUTE 1,2,\r\n" = some ⟨"1", "ROUTE", "1,2,"⟩ ∧
    ("1,2," : String).data.getLast? = some ',' := by
  constructor
  · decide
  · decide

/-- C6 (amended): a trailing comma in the parameter field is preserved by
the parser: the greedy parameter group includes it and only whitespace
is stripped, so parsed params may end in a comma. -/
theorem c6_trailing_comma (d : Char) (t p : String)
    (hd : d.isDigit) (ht : ∀ c ∈ t.data, c ≠ ' ' ∧ c ≠ '\n')
    (hp : '\n' ∉ p.data) (hps : pyStrip p = p)
    (hcomma : p.data.getLast? = some ',') :
    ∃ r, parse_response (mkResponseLine (String.mk [d]) t p) = some r ∧
      r.params = p ∧ r.params.data.getLast? = some ',' := by
  refine ⟨⟨String.mk [d], pyStrip t, p⟩, ?_, rfl, hcomma⟩
  rw [parse_mkResponseLine d t p hd ht hp, hps]

/-- C6 witness: the preserved trailing comma at the concrete params "1,". -/
theorem c6_trailing_comma_witness :
    ∃ r, parse_response (mkResponseLine (String.mk ['1']) "ROUTE" "1,") = some r ∧
      r.params = "1," ∧ r.params.data.getLast? = some ',' :=
  c6_trailing_comma '1' "ROUTE" "1," (by decide) (by decide) (by decide)
    (by decide) (by decide)

/-! ## proto3k.py — `KramerProtocol.send_message`

The mock connection is a list of the strings returned by successive
`_recv_until_newline` calls; an exhausted list means no data (the code
treats empty data as "stop the loop").  The socket timeout is threaded
explicitly: the drain step sets it to 0.01, each `_recv_until_newline`
call sets it to 0.5, and nothing ever restores the pre-call value. -/

/-- Python `str.upper()` (tags are ASCII). -/
def pyUpper (s : String) : String := String.mk (s.data.map Char.toUpper)

/-- Observable result of one `send_message` call: whether a matching
response was found, how many read attempts ran, and the socket timeout
in effect at return. -/
structure SendOutcome where
  foundMatch : Bool
  readsPerformed : ℕ
  finalTimeout : ℚ
deriving DecidableEq, Repr

/-- The bounded read-and-match loop (`for _ in range(max_retries)`): read
a line (setting the socket timeout to 0.5); stop on empty data; skip
unparsable lines; stop with a match when the parsed tag equals the
expected tag case-insensitively; otherwise log and continue. -/
def readLoop (expected : String) : ℕ → List String → ℕ → ℚ → SendOutcome
  | 0, _, count, t => ⟨false, count, t⟩
  | fuel + 1, reads, count, _ =>
    match reads with
    | [] => ⟨false, count + 1, 1/2⟩
    | line :: rest =>
      if line = "" then ⟨false, count + 1, 1/2⟩
      else
        match parse_response line with
        | none => readLoop expected fuel rest (count + 1) (1/2)
        | some r =>
          if pyUpper r.command = pyUpper expected then ⟨true, count + 1, 1/2⟩
          else readLoop expected fuel rest (count + 1) (1/2)

/-- Embedding of the normal (non-raising) path of `send_message`: drain
(timeout 0.01), transmit, then the match loop with a retry budget of 10.
The pre-call timeout `t0` is deliberately unused: the code never reads
or restores it. -/
def send_message (expected : String) (reads : List String) (t0 : ℚ) : SendOutcome :=
  readLoop expected 10 reads 0 (1/100)

/-- A read line that is non-empty, parses, and carries a tag other than
the expected one (case-insensitively): the "ignored stale response" case. -/
def mismatchLine (expected line : String) : Bool :=
  (line != "") &&
    (match parse_response line with
     | none => false
     | some r => pyUpper r.command != pyUpper expected)

/-- Running the loop on `n` mismatching lines consumes exactly `n` reads
and reports no match. -/
theorem readLoop_mismatch (expected : String) :
    ∀ (n : ℕ) (reads : List String) (count : ℕ) (t : ℚ),
      n ≤ reads.length →
      (∀ line ∈ reads.take n, mismatchLine expected line = true) →
      readLoop expected n reads count t =
        ⟨false, count + n, if n = 0 then t else 1/2⟩ := by
  intro n
  induction n with
  | zero =>
    intro reads count t _ _
    simp [readLoop]
  | succ m ih =>
    intro reads count t hlen hcond
    match reads with
    | [] => simp at hlen
    | line :: rest =>
      have hl := hcond line (by simp)
      rw [mismatchLine, Bool.and_eq_true] at hl
      cases hp : parse_response line with
      | none => simp [hp] at hl
      | some r =>
        rw [hp] at hl
        obtain ⟨hne, hm⟩ := hl
        have hne' : line ≠ "" := by simpa using hne
        simp only [bne_iff_ne, ne_eq] at hm
        have hrec := ih rest (count + 1) (1/2) (by simpa using hlen)
          (fun l hl2 => hcond l (by simp [hl2]))
        simp only [readLoop, if_neg hne', hp, if_neg hm, hrec]
        simp only [SendOutcome.mk.injEq, ite_self]
        refine ⟨trivial, by omega, ?_⟩
        rw [if_neg (Nat.succ_ne_zero m)]

/-- C3: with a non-empty expected tag and a connection that keeps
producing non-empty parseable lines whose tag differs from the expected
one, `send_message` performs exactly 10 read attempts (the fixed retry
budget) and reports no match — the Timeout-No-Response warning — without
raising and without closing the connection. -/
theorem c3_retry_budget (expected : String) (reads : List String) (t0 : ℚ)
    (hlen : 10 ≤ reads.length)
    (hcond : ∀ line ∈ reads.take 10, mismatchLine expected line = true) :
    send_message expected reads t0 = ⟨false, 10, 1/2⟩ := by
  unfold send_message
  rw [readLoop_mismatch expected 10 reads 0 (1/100) hlen hcond]
  norm_num

/-- C3 witness: ten stale `OTHER` responses against expected tag `ROUTE`. -/
theorem c3_retry_budget_witness :
    send_message "ROUTE" (List.replicate 10 "~1@OTHER 1\r\n") 2 = ⟨false, 10, 1/2⟩ :=
  c3_retry_budget "ROUTE" (List.replicate 10 "~1@OTHER 1\r\n") 2 (by decide) (by decide)

/-- C2 (counterexample): for the empty expected tag (the Handshake), the
match loop is NOT skipped: with no pending data the code still performs
one read and then reports the timeout warning, not Success; with ten
pending non-matching lines it performs all ten reads. -/
theorem c2_counterexample :
    send_message "" [] 2 = ⟨false, 1, 1/2⟩ ∧
    send_message "" (List.replicate 10 "~1@ROUTE 1\r\n") 2 = ⟨false, 10, 1/2⟩ := by
  constructor
  · simp [send_message, readLoop]
  · have := readLoop_mismatch "" 10 (List.replicate 10 "~1@ROUTE 1\r\n") 0 (1/100)
      (by decide) (by decide)
    unfold send_message
    rw [this]
    norm_num

/-- C2 (amended): commands with an empty expected response tag run the
same match loop as every other command: with no pending data the loop
performs one read and reports the timeout warning; Success is reported
(after one read) only when a line parses with an empty command tag. -/
theorem c2_empty_tag (reads : List String) (t0 : ℚ) :
    (reads = [] → send_message "" reads t0 = ⟨false, 1, 1/2⟩) ∧
    (∀ line rest r, reads = line :: rest → line ≠ "" →
      parse_response line = some r → pyUpper r.command = "" →
      send_message "" reads t0 = ⟨true, 1, 1/2⟩) := by
  constructor
  · intro h
    subst h
    simp [send_message, readLoop]
  · intro line rest r hr hne hp hcmd
    subst hr
    simp only [send_message, readLoop, if_neg hne, hp]
    rw [if_pos (by rw [hcmd]; rfl)]

/-- C2 witness: a device line parsing with an empty tag matches the
Handshake's empty expected tag after one read. -/
theorem c2_empty_tag_witness :
    send_message "" ["~1@ OK\r\n"] 2 = ⟨true, 1, 1/2⟩ :=
  (c2_empty_tag ["~1@ OK\r\n"] 2).2 "~1@ OK\r\n" [] ⟨"1", "", "OK"⟩ rfl
    (by decide) (by decide) (by decide)

/-- Any run of the loop with nonzero fuel ends with the socket timeout
at 0.5, the value set by the last `_recv_until_newline` call. -/
theorem readLoop_finalTimeout (expected : String) :
    ∀ (fuel : ℕ) (reads : List String) (count : ℕ) (t : ℚ),
      (readLoop expected (fuel + 1) reads count t).finalTimeout = 1/2 := by
  intro fuel
  induction fuel with
  | zero =>
    intro reads count t
    cases reads with
    | nil => rfl
    | cons line rest =>
      simp only [readLoop]
      split_ifs with h1
      · rfl
      · cases hp : parse_response line with
        | none => rfl
        | some r =>
          simp only
          split_ifs with h2
          · rfl
          · rfl
  | succ m ih =>
    intro reads count t
    cases reads with
    | nil => rfl
    | cons line rest =>
      simp only [readLoop]
      split_ifs with h1
      · rfl
      · cases hp : parse_response line with
        | none => exact ih rest (count + 1) (1/2)
        | some r =>
          simp only
          split_ifs with h2
          · rfl
          · exact ih rest (count + 1) (1/2)

/-- C8 (counterexample): with the pre-call timeout 2.0 (the connect
timeout of the very first Handshake) and no pending data, the call
returns with the socket timeout left at 0.5 — not restored to 2.0. -/
theorem c8_counterexample :
    (send_message "" [] 2).finalTimeout = 1/2 ∧ ((1 : ℚ)/2) ≠ 2 := by
  constructor
  · simp [send_message, readLoop]
  · norm_num

/-- C8 (amended): `send_message` never restores the pre-call read
timeout; on every non-raising path the socket timeout at return equals
0.5, the fixed per-attempt read timeout of the match loop, regardless of
the value in effect before the call.  (The 0.1 s settle delay does run
on every path; see the exception-flow theorem.) -/
theorem c8_timeout_not_restored (expected : String) (reads : List String) (t0 : ℚ) :
    (send_message expected reads t0).finalTimeout = 1/2 := by
  unfold send_message
  exact readLoop_finalTimeout expected 9 reads 0 (1/100)

/-! ## proto3k.py — exception containment of `send_message` -/

/-- Result of one Python step: a value, or a raised `Exception`-subclass
error (the kind caught by `except Exception`). -/
inductive PyStep (α : Type) where
  | ok : α → PyStep α
  | exc : String → PyStep α

/-- Fallible collaborators of one `send_message` call: `get_command`,
`sendall`, the successive line reads, and the `handle_response` callback. -/
structure SendEnv where
  getCommand : PyStep String
  transmit : PyStep Unit
  reads : List (PyStep String)
  handle : String → PyStep (Option String)

/-- Interpret a step in the body's exception monad. -/
def PyStep.toExcept {α : Type} : PyStep α → Except String α
  | .ok a => .ok a
  | .exc e => .error e

/-- The match loop with fallible reads and response handler: the first
raised exception aborts the body (to be caught by the enclosing
`except Exception`). -/
def readLoopExc (expected : String) (handle : String → PyStep (Option String)) :
    ℕ → List (PyStep String) → Except String Bool
  | 0, _ => .ok false
  | fuel + 1, reads =>
    match reads with
    | [] => .ok false
    | .exc e :: _ => .error e
    | .ok line :: rest =>
      if line = "" then .ok false
      else
        match parse_response line with
        | none => readLoopExc expected handle fuel rest
        | some r =>
          if pyUpper r.command = pyUpper expected then
            match handle line with
            | .exc e => .error e
            | .ok _ => .ok true
          else readLoopExc expected handle fuel rest

/-- The try-guarded body of `send_message`: everything from
`msg.get_command()` through the match loop, in the exception monad. -/
def sendBody (expected : String) (env : SendEnv) : Except String Bool := do
  let _cmd ← env.getCommand.toExcept
  let _ ← env.transmit.toExcept
  readLoopExc expected env.handle 10 env.reads

/-- Whole-call control flow of `send_message`: the entire body runs
inside `try ... except Exception` (the drain's bare `except: pass`
swallows its own errors), the handler only logs, and the settle delay
`time.sleep(0.1)` sits after the try/except.  Returns (exception escaped
to the caller?, settle delay ran?). -/
def send_message_flow (expected : String) (env : SendEnv) : Bool × Bool :=
  match sendBody expected env with
  | .ok _ => (false, true)
  | .error _ => (false, true)

/-- C10: `send_message` never propagates an exception: for every command
and every failure in `get_command`, transmit, any read, parsing, or the
response handler, the call returns normally (no exception escapes) and
the fixed settle delay still runs, so a Send-Error alone never reaches
the caller and cannot trigger reconnection. -/
theorem c10_send_message_total (expected : String) (env : SendEnv) :
    send_message_flow expected env = (false, true) := by
  unfold send_message_flow
  cases sendBody expected env <;> rfl

/-! ## sq_midi_controller.py — NRPN command constructors -/

/-- Python exceptions observable from the NRPN command constructors. -/
inductive InitError where
  | channelValueError : InitError
  | dbKeyError : InitError
  | dbValueError : InitError
deriving DecidableEq, Repr

/-- State of a constructed NRPN command (channel index, resolved address,
14-bit value) as stored by the `__init__` methods. -/
structure NrpnCommand where
  midi_channel_idx : ℤ
  nrpn_address : ℕ
  nrpn_value : ℤ
deriving DecidableEq, Repr

/-- Embedding of `SetFaderLevelNRPN.__init__`: reject a MIDI channel
outside `1..16` with a `ValueError`; CLAMP an out-of-range level into
`[0, 16383]` after printing a warning (no exception); then resolve the
`Fader` NRPN address, propagating its `KeyError`/`ValueError`. -/
def SetFaderLevelNRPN_init (from_ch to_ch : String) (level : ℤ)
    (midi_channel : ℤ) : Except InitError NrpnCommand :=
  if ¬(1 ≤ midi_channel ∧ midi_channel ≤ 16) then .error .channelValueError
  else
    let level1 := if ¬(0 ≤ level ∧ level ≤ 16383) then max 0 (min 16383 level) else level
    match get_nrpn_address "Fader" from_ch to_ch with
    | .error .keyError => .error .dbKeyError
    | .error .valueError => .error .dbValueError
    | .ok addr => .ok ⟨midi_channel - 1, addr, level1⟩

/-- Embedding of `SetPanNRPN.__init__`: same shape as the fader
constructor, with the `Pan` base address and the pan value clamped (not
rejected) when out of range. -/
def SetPanNRPN_init (from_ch to_ch : String) (pan_value : ℤ)
    (midi_channel : ℤ) : Except InitError NrpnCommand :=
  if ¬(1 ≤ midi_channel ∧ midi_channel ≤ 16) then .error .channelValueError
  else
    let pan1 := if ¬(0 ≤ pan_value ∧ pan_value ≤ 16383) then max 0 (min 16383 pan_value)
      else pan_value
    match get_nrpn_address "Pan" from_ch to_ch with
    | .error .keyError => .error .dbKeyError
    | .error .valueError => .error .dbValueError
    | .ok addr => .ok ⟨midi_channel - 1, addr, pan1⟩

/-- The conditional clamp of the constructors equals an unconditional
clamp into `[0, 16383]`. -/
theorem clamp_eq (v : ℤ) :
    (if ¬(0 ≤ v ∧ v ≤ 16383) then max 0 (min 16383 v) else v)
      = max 0 (min 16383 v) := by
  split_ifs with h
  · rw [min_eq_right h.2, max_eq_right h.1]
  · rfl

/-- C7 (counterexample): constructing a fader command with the wildly
out-of-range level 20000 does NOT raise — the level is clamped to 16383
and the command is built (and would be sent on the wire). -/
theorem c7_counterexample :
    SetFaderLevelNRPN_init "IP1" "LR" 20000 1 = .ok ⟨0, 8192, 16383⟩ := rfl

/-- C7 (amended): a MIDI channel outside `1..16` raises a `ValueError`
at construction time, and an unknown channel pair raises a `KeyError`
at construction time — in both cases no command exists to send; but an
out-of-range level or pan value does not raise: it is clamped into
`[0, 16383]` with a printed warning and the command is constructed with
the clamped value. -/
theorem c7_construction_errors (f t : String) (level pan ch : ℤ) :
    (¬(1 ≤ ch ∧ ch ≤ 16) →
      SetFaderLevelNRPN_init f t level ch = .error .channelValueError ∧
      SetPanNRPN_init f t pan ch = .error .channelValueError) ∧
    ((1 ≤ ch ∧ ch ≤ 16) → CHANNEL_ADDRESS_MAP.lookup (f, t) = none →
      SetFaderLevelNRPN_init f t level ch = .error .dbKeyError ∧
      SetPanNRPN_init f t pan ch = .error .dbKeyError) ∧
    (∀ v, (1 ≤ ch ∧ ch ≤ 16) → CHANNEL_ADDRESS_MAP.lookup (f, t) = some v →
      SetFaderLevelNRPN_init f t level ch =
        .ok ⟨ch - 1, 8192 + v, max 0 (min 16383 level)⟩ ∧
      SetPanNRPN_init f t pan ch =
        .ok ⟨ch - 1, 10240 + v, max 0 (min 16383 pan)⟩) := by
  refine ⟨?_, ?_, ?_⟩
  · intro hch
    constructor
    · unfold SetFaderLevelNRPN_init
      rw [if_pos hch]
    · unfold SetPanNRPN_init
      rw [if_pos hch]
  · intro hch hnone
    have hfader : get_nrpn_address "Fader" f t = .error .keyError := by
      unfold get_nrpn_address
      rw [control_fader, hnone]
    have hpan : get_nrpn_address "Pan" f t = .error .keyError := by
      unfold get_nrpn_address
      rw [control_pan, hnone]
    constructor
    · unfold SetFaderLevelNRPN_init
      rw [if_neg (not_not_intro hch), hfader]
    · unfold SetPanNRPN_init
      rw [if_neg (not_not_intro hch), hpan]
  · intro v hch hsome
    have hv : v ≤ 5175 := map_value_le _ (lookup_mem hsome)
    have hfader : get_nrpn_address "Fader" f t = .ok (8192 + v) := by
      rw [get_nrpn_address_eq control_fader hsome, if_pos (by omega)]
    have hpan : get_nrpn_address "Pan" f t = .ok (10240 + v) := by
      rw [get_nrpn_address_eq control_pan hsome, if_pos (by omega)]
    constructor
    · unfold SetFaderLevelNRPN_init
      rw [if_neg (not_not_intro hch), clamp_eq, hfader]
    · unfold SetPanNRPN_init
      rw [if_neg (not_not_intro hch), clamp_eq, hpan]

/-- C7 witness: channel 0 is rejected for pan, and a valid pan command at
channel 1 on `(IP1, LR)` carries the clamped value of -5, namely 0. -/
theorem c7_construction_errors_witness :
    SetPanNRPN_init "IP1" "LR" 7 0 = .error .channelValueError ∧
    SetPanNRPN_init "IP1" "LR" (-5) 1 = .ok ⟨0, 10240, 0⟩ := by
  constructor
  · exact ((c7_construction_errors "IP1" "LR" 7 7 0).1 (by norm_num)).2
  · have h := ((c7_construction_errors "IP1" "LR" 7 (-5) 1).2.2 0 (by norm_num) rfl).2
    simpa using h

end BucksChurch
